import Mathlib

/-!
Shallow embedding of the interactive 3D Christmas-tree scene
(src/components/Scene3D.tsx and src/types): the gesture/click mode state
machine, the stochastic layout formulas of the Particle class, and the
per-frame Particle.update step.

The mode state machine (processGestures, onClick) is embedded over ℚ so
that every definition is executable and every predicate decidable; the
geometric layout formulas and the per-frame update, which use
trigonometric and power functions, are embedded over ℝ.
-/

namespace Scene3D

/-- The application mode, from src/types: `export type AppMode = 'TREE' | 'SCATTER' | 'FOCUS'`. -/
inductive AppMode where
  | TREE
  | SCATTER
  | FOCUS
deriving DecidableEq, Repr

open AppMode

/-- The data of a particle that the gesture classifier and the click handler
inspect: `mesh` is an identifier standing for the renderable handle
(`THREE.Mesh | THREE.Group` in the source), `type` is the category string
(the source uses `'PHOTO'`, `'BOX'`, `'DUST'`, ...). -/
structure PInfo where
  mesh : ℕ
  type : String
deriving DecidableEq, Repr, Inhabited

/-- The shared mutable state of Scene3D: `modeRef.current` (initialised to
`'TREE'`) and `focusTargetRef.current` (initialised to `null`, modelled as
`none`); the focus target holds the renderable handle of the focused photo. -/
structure GState where
  mode : AppMode
  focusTarget : Option ℕ
deriving DecidableEq, Repr

/-- `const FIST_THRESHOLD = 0.25` (Scene3D.tsx line 305). -/
def FIST_THRESHOLD : ℚ := 0.25

/-- `const OPEN_THRESHOLD = 0.45` (Scene3D.tsx line 306). -/
def OPEN_THRESHOLD : ℚ := 0.45

/-- `const PINCH_THRESHOLD = 0.08` (Scene3D.tsx line 307). -/
def PINCH_THRESHOLD : ℚ := 0.08

/-- The state-machine core of `processGestures` (Scene3D.tsx lines 309-342).
`avgDistToWrist` (openness) and `pinchDist` are the landmark metrics computed
upstream of the branch (lines 290-298); `u` is the `Math.random()` draw used
to pick a random photo, `particles` is `particlesRef.current`.  The branch
structure follows the source exactly: fist check, else pinch check with a
uniformly drawn photo index `Math.floor(Math.random() * photos.length)`,
else the open-hand check made of the two sequential `if`s of lines 333-341. -/
def processGestures (avgDistToWrist pinchDist u : ℚ) (particles : List PInfo)
    (s : GState) : GState :=
  if avgDistToWrist < FIST_THRESHOLD then
    -- FIST DETECTED -> TREE (Closed)
    if s.mode ≠ TREE then { mode := TREE, focusTarget := none } else s
  else if pinchDist < PINCH_THRESHOLD then
    -- GRAB/PINCH DETECTED -> FOCUS
    if s.mode ≠ FOCUS then
      let photos := particles.filter (fun p => p.type == "PHOTO")
      if 0 < photos.length then
        { mode := FOCUS,
          focusTarget := some (photos.getD (⌊u * (photos.length : ℚ)⌋.toNat) default).mesh }
      else
        { mode := FOCUS, focusTarget := s.focusTarget }
    else s
  else if avgDistToWrist > OPEN_THRESHOLD then
    -- OPEN HAND -> SCATTER: first guarded transition, then the second
    -- unconditional FOCUS -> SCATTER release (lines 333-341)
    let s1 := if s.mode ≠ SCATTER ∧ s.mode ≠ FOCUS then
                { mode := SCATTER, focusTarget := none } else s
    if s1.mode = FOCUS then { mode := SCATTER, focusTarget := none } else s1
  else s

/-- The click fallback handler (Scene3D.tsx lines 675-707).  The ray cast
against the photo renderables and the walk up to the child of
`photoGroupRef.current` are summarised by `hit`: `some g` when the ray
intersects a photo and `g` is that photo's renderable group, `none` when no
photo is hit.  On a miss the mode cycles `FOCUS -> SCATTER` (clearing the
focus target), `TREE -> SCATTER`, `SCATTER -> TREE`, as in the source. -/
def onClick (hit : Option ℕ) (s : GState) : GState :=
  match hit with
  | some g => { mode := FOCUS, focusTarget := some g }
  | none =>
    if s.mode = FOCUS then { mode := SCATTER, focusTarget := none }
    else if s.mode = TREE then { mode := SCATTER, focusTarget := s.focusTarget }
    else { mode := TREE, focusTarget := s.focusTarget }

/-- One event acting on the shared mode/focus state: either a gesture
classification frame or a click. -/
inductive Event where
  | gesture (avgDistToWrist pinchDist u : ℚ) (particles : List PInfo)
  | click (hit : Option ℕ)

/-- Apply one event to the shared state. -/
def applyEvent (s : GState) (e : Event) : GState :=
  match e with
  | .gesture o pd u ps => processGestures o pd u ps s
  | .click h => onClick h s

/-- The initial shared state: `modeRef = useRef<AppMode>('TREE')`,
`focusTargetRef = useRef<THREE.Object3D | null>(null)` (lines 154, 158). -/
def initState : GState := { mode := TREE, focusTarget := none }

/-- Run a sequence of gesture/click events from the initial state. -/
def run (es : List Event) : GState := es.foldl applyEvent initState

/-- The focus-target invariant: the focus target is non-null only in FOCUS mode. -/
def FocusInv (s : GState) : Prop := s.focusTarget ≠ none → s.mode = FOCUS

instance (s : GState) : Decidable (FocusInv s) := by
  unfold FocusInv; infer_instance

lemma focusInv_processGestures (o pd u : ℚ) (ps : List PInfo) (s : GState)
    (h : FocusInv s) : FocusInv (processGestures o pd u ps s) := by
  unfold processGestures FocusInv at *
  split_ifs with h1 h2 h3 h4 h5 h6 <;> simp_all
  all_goals split_ifs <;> simp_all

lemma focusInv_onClick (hit : Option ℕ) (s : GState)
    (h : FocusInv s) : FocusInv (onClick hit s) := by
  unfold onClick FocusInv at *
  cases hit <;> simp_all
  split_ifs <;> simp_all

lemma focusInv_run (es : List Event) : FocusInv (run es) := by
  have key : ∀ (es : List Event) (s : GState), FocusInv s →
      FocusInv (es.foldl applyEvent s) := by
    intro es
    induction es with
    | nil => intro s hs; exact hs
    | cons e rest ih =>
      intro s hs
      refine ih (applyEvent s e) ?_
      cases e with
      | gesture o pd u ps => exact focusInv_processGestures o pd u ps s hs
      | click h => exact focusInv_onClick h s hs
  exact key es initState (by intro h; simp [initState] at h)

/-- C1: whenever a detection has openness not below the fist threshold, pinch
distance not below the pinch threshold, and openness above OPEN_THRESHOLD
(0.45), an open hand always exits FOCUS mode into SCATTER and clears the
focus target, regardless of the prior mode; from TREE it also transitions to
SCATTER with the focus target cleared. -/
theorem open_hand_releases_focus (o pd u : ℚ) (ps : List PInfo) (s : GState)
    (h1 : ¬ o < FIST_THRESHOLD) (h2 : ¬ pd < PINCH_THRESHOLD)
    (h3 : o > OPEN_THRESHOLD) :
    (s.mode = FOCUS →
      processGestures o pd u ps s = { mode := SCATTER, focusTarget := none }) ∧
    (s.mode = TREE →
      processGestures o pd u ps s = { mode := SCATTER, focusTarget := none }) := by
  unfold processGestures
  rw [if_neg h1, if_neg h2, if_pos h3]
  constructor <;> intro hm <;> simp [hm]

theorem open_hand_releases_focus_witness :
    ¬ (1/2 : ℚ) < FIST_THRESHOLD ∧ ¬ (1 : ℚ) < PINCH_THRESHOLD ∧
    (1/2 : ℚ) > OPEN_THRESHOLD ∧
    processGestures (1/2) 1 0 [] { mode := AppMode.FOCUS, focusTarget := some 3 }
      = { mode := SCATTER, focusTarget := none } :=
  ⟨by norm_num [FIST_THRESHOLD], by norm_num [PINCH_THRESHOLD],
    by norm_num [OPEN_THRESHOLD],
    (open_hand_releases_focus (1/2) 1 0 []
      { mode := AppMode.FOCUS, focusTarget := some 3 }
      (by norm_num [FIST_THRESHOLD]) (by norm_num [PINCH_THRESHOLD])
      (by norm_num [OPEN_THRESHOLD])).1 rfl⟩

/-- C2 counterexample: with openness 0.1 < FIST_THRESHOLD but prior state
(TREE, some 7), the fist branch leaves the state untouched, so the focus
target is NOT null afterward — refuting the claim for every prior mode and
prior focus target. -/
theorem fist_stale_focus_counterexample :
    (processGestures (1/10) 1 0 []
      { mode := AppMode.TREE, focusTarget := some 7 }).focusTarget ≠ none := by
  unfold processGestures
  rw [if_pos (by norm_num [FIST_THRESHOLD])]
  simp

/-- C2 (amended): with openness below FIST_THRESHOLD the mode is TREE
afterward, with priority over the pinch and open-hand conditions; the focus
target is null afterward provided the prior state satisfied the invariant
that a TREE-mode state carries no focus target (the fist branch is a no-op
when the mode is already TREE, so a stale focus target would be kept). -/
theorem fist_forces_tree (o pd u : ℚ) (ps : List PInfo) (s : GState)
    (ho : o < FIST_THRESHOLD)
    (hInv : s.mode = AppMode.TREE → s.focusTarget = none) :
    (processGestures o pd u ps s).mode = AppMode.TREE ∧
    (processGestures o pd u ps s).focusTarget = none := by
  unfold processGestures
  rw [if_pos ho]
  by_cases hm : s.mode = AppMode.TREE
  · simp [hm, hInv hm]
  · simp [hm]

theorem fist_forces_tree_witness :
    (1/10 : ℚ) < FIST_THRESHOLD ∧
    (1/100 : ℚ) < PINCH_THRESHOLD ∧
    (processGestures (1/10) (1/100) 0 [⟨5, "PHOTO"⟩]
      { mode := AppMode.SCATTER, focusTarget := some 3 }).mode = AppMode.TREE ∧
    (processGestures (1/10) (1/100) 0 [⟨5, "PHOTO"⟩]
      { mode := AppMode.SCATTER, focusTarget := some 3 }).focusTarget = none :=
  ⟨by norm_num [FIST_THRESHOLD], by norm_num [PINCH_THRESHOLD],
    (fist_forces_tree (1/10) (1/100) 0 [⟨5, "PHOTO"⟩]
      { mode := AppMode.SCATTER, focusTarget := some 3 }
      (by norm_num [FIST_THRESHOLD]) (by simp)).1,
    (fist_forces_tree (1/10) (1/100) 0 [⟨5, "PHOTO"⟩]
      { mode := AppMode.SCATTER, focusTarget := some 3 }
      (by norm_num [FIST_THRESHOLD]) (by simp)).2⟩

/-- C3: with openness at or above FIST_THRESHOLD and pinch distance below
PINCH_THRESHOLD: if the mode is already FOCUS nothing changes; otherwise the
mode becomes FOCUS and, when at least one photo-type entity exists, the focus
target becomes the renderable of the photo at the uniformly drawn index
⌊u·n⌋ (a member of the photo list, every index being attainable by some
draw), with the focus target unchanged when no photo exists. -/
theorem pinch_enters_focus (o pd u : ℚ) (ps : List PInfo) (s : GState)
    (h1 : ¬ o < FIST_THRESHOLD) (h2 : pd < PINCH_THRESHOLD)
    (hu0 : 0 ≤ u) (hu1 : u < 1) :
    (s.mode = AppMode.FOCUS → processGestures o pd u ps s = s) ∧
    (s.mode ≠ AppMode.FOCUS →
      (processGestures o pd u ps s).mode = AppMode.FOCUS ∧
      (ps.filter (fun p => p.type == "PHOTO") = [] →
        (processGestures o pd u ps s).focusTarget = s.focusTarget) ∧
      (ps.filter (fun p => p.type == "PHOTO") ≠ [] →
        ∃ i : Fin (ps.filter (fun p => p.type == "PHOTO")).length,
          i.val = ⌊u * ((ps.filter (fun p => p.type == "PHOTO")).length : ℚ)⌋.toNat ∧
          (processGestures o pd u ps s).focusTarget
            = some ((ps.filter (fun p => p.type == "PHOTO")).get i).mesh) ∧
      (∀ j : Fin (ps.filter (fun p => p.type == "PHOTO")).length,
        ∃ v : ℚ, 0 ≤ v ∧ v < 1 ∧
          ⌊v * ((ps.filter (fun p => p.type == "PHOTO")).length : ℚ)⌋.toNat = j.val)) := by
  have hkey : processGestures o pd u ps s =
      if s.mode ≠ AppMode.FOCUS then
        if 0 < (ps.filter (fun p => p.type == "PHOTO")).length then
          { mode := FOCUS,
            focusTarget := some ((ps.filter (fun p => p.type == "PHOTO")).getD
              (⌊u * ((ps.filter (fun p => p.type == "PHOTO")).length : ℚ)⌋.toNat)
              default).mesh }
        else { mode := FOCUS, focusTarget := s.focusTarget }
      else s := by
    unfold processGestures
    rw [if_neg h1, if_pos h2]
  constructor
  · intro hm
    rw [hkey, if_neg (not_not_intro hm)]
  · intro hm
    rw [hkey, if_pos hm]
    refine ⟨?_, ?_, ?_, ?_⟩
    · split_ifs <;> rfl
    · intro hnil
      rw [if_neg (by simp [hnil])]
    · intro hne
      have hlen : 0 < (ps.filter (fun p => p.type == "PHOTO")).length :=
        List.length_pos.mpr hne
      have hcast : (0 : ℚ) < ((ps.filter (fun p => p.type == "PHOTO")).length : ℚ) := by
        exact_mod_cast hlen
      have hmul : u * ((ps.filter (fun p => p.type == "PHOTO")).length : ℚ)
          < ((ps.filter (fun p => p.type == "PHOTO")).length : ℚ) := by
        calc u * ((ps.filter (fun p => p.type == "PHOTO")).length : ℚ)
            < 1 * ((ps.filter (fun p => p.type == "PHOTO")).length : ℚ) :=
              mul_lt_mul_of_pos_right hu1 hcast
          _ = ((ps.filter (fun p => p.type == "PHOTO")).length : ℚ) := one_mul _
      have hfl : ⌊u * ((ps.filter (fun p => p.type == "PHOTO")).length : ℚ)⌋
          < ((ps.filter (fun p => p.type == "PHOTO")).length : ℤ) :=
        Int.floor_lt.mpr (by exact_mod_cast hmul)
      have hfn : (0 : ℤ) ≤ ⌊u * ((ps.filter (fun p => p.type == "PHOTO")).length : ℚ)⌋ :=
        Int.floor_nonneg.mpr (mul_nonneg hu0 (by positivity))
      have hidx : ⌊u * ((ps.filter (fun p => p.type == "PHOTO")).length : ℚ)⌋.toNat
          < (ps.filter (fun p => p.type == "PHOTO")).length := by omega
      refine ⟨⟨⌊u * ((ps.filter (fun p => p.type == "PHOTO")).length : ℚ)⌋.toNat,
        hidx⟩, rfl, ?_⟩
      rw [if_pos hlen]
      rw [List.getD_eq_getElem?_getD, List.getElem?_eq_getElem hidx]
      simp [List.get_eq_getElem]
    · intro j
      have hcast : (0 : ℚ) < ((ps.filter (fun p => p.type == "PHOTO")).length : ℚ) := by
        exact_mod_cast j.pos
      refine ⟨(j.val : ℚ) / ((ps.filter (fun p => p.type == "PHOTO")).length : ℚ),
        by positivity, ?_, ?_⟩
      · rw [div_lt_one hcast]
        exact_mod_cast j.isLt
      · rw [div_mul_cancel₀ _ (ne_of_gt hcast)]
        simp

theorem pinch_enters_focus_witness :
    ¬ (1/2 : ℚ) < FIST_THRESHOLD ∧ (1/20 : ℚ) < PINCH_THRESHOLD ∧
    (processGestures (1/2) (1/20) 0 [⟨5, "PHOTO"⟩, ⟨6, "BOX"⟩]
      { mode := AppMode.TREE, focusTarget := none }).mode = AppMode.FOCUS :=
  ⟨by norm_num [FIST_THRESHOLD], by norm_num [PINCH_THRESHOLD],
    ((pinch_enters_focus (1/2) (1/20) 0 [⟨5, "PHOTO"⟩, ⟨6, "BOX"⟩]
      { mode := AppMode.TREE, focusTarget := none }
      (by norm_num [FIST_THRESHOLD]) (by norm_num [PINCH_THRESHOLD])
      (by norm_num) (by norm_num)).2 (by simp)).1⟩

/-- C4: in every state reachable from the initial state (TREE, no focus) by
any sequence of gesture-classification and click-handler steps, the focus
target is non-null only when the mode is FOCUS, and at most one renderable is
the focus target at any time. -/
theorem reachable_focus_invariant (es : List Event) :
    ((run es).focusTarget ≠ none → (run es).mode = AppMode.FOCUS) ∧
    (∀ r1 r2 : ℕ, (run es).focusTarget = some r1 →
      (run es).focusTarget = some r2 → r1 = r2) := by
  refine ⟨focusInv_run es, ?_⟩
  intro r1 r2 e1 e2
  rw [e1] at e2
  exact Option.some.inj e2

theorem reachable_focus_invariant_witness :
    (run [Event.click (some 5)]).focusTarget ≠ none ∧
    (run [Event.click (some 5)]).mode = AppMode.FOCUS :=
  ⟨by decide, (reachable_focus_invariant [Event.click (some 5)]).1 (by decide)⟩

/-- C5: a click that hits a photo forces FOCUS with that photo's group as the
focus target, independent of the prior mode; a miss cycles
FOCUS→SCATTER (clearing the focus target), TREE→SCATTER, SCATTER→TREE, and in
particular never takes the state to FOCUS. -/
theorem onClick_cycles (hit : Option ℕ) (s : GState) :
    (∀ g, hit = some g → onClick hit s = { mode := AppMode.FOCUS, focusTarget := some g }) ∧
    (hit = none →
      (s.mode = AppMode.FOCUS →
        onClick hit s = { mode := AppMode.SCATTER, focusTarget := none }) ∧
      (s.mode = AppMode.TREE → (onClick hit s).mode = AppMode.SCATTER) ∧
      (s.mode = AppMode.SCATTER → (onClick hit s).mode = AppMode.TREE) ∧
      (onClick hit s).mode ≠ AppMode.FOCUS) := by
  constructor
  · rintro g rfl; rfl
  · rintro rfl
    unfold onClick
    refine ⟨fun hm => by simp [hm], fun hm => by simp [hm], fun hm => by simp [hm], ?_⟩
    split_ifs <;> simp_all

theorem onClick_cycles_witness :
    onClick (some 4) { mode := AppMode.TREE, focusTarget := none }
      = { mode := AppMode.FOCUS, focusTarget := some 4 } ∧
    onClick none { mode := AppMode.FOCUS, focusTarget := some 4 }
      = { mode := AppMode.SCATTER, focusTarget := none } :=
  ⟨(onClick_cycles (some 4) { mode := AppMode.TREE, focusTarget := none }).1 4 rfl,
   ((onClick_cycles none { mode := AppMode.FOCUS, focusTarget := some 4 }).2 rfl).1 rfl⟩

/-! ## Geometry: the stochastic layout formulas of the Particle class -/

noncomputable section

/-- A 3-component vector, modelling `THREE.Vector3` over ℝ. -/
structure Vec3 where
  x : ℝ
  y : ℝ
  z : ℝ

/-- `CONFIG.particles.treeHeight = 24` (Scene3D.tsx line 20). -/
def treeHeight : ℝ := 24

/-- `CONFIG.particles.treeRadius = 8` (Scene3D.tsx line 21). -/
def treeRadius : ℝ := 8

/-- `CONFIG.camera.z = 50` (Scene3D.tsx line 24). -/
def cameraZ : ℝ := 50

/-- `Particle.calculatePositions` (Scene3D.tsx lines 59-81), parameterised by
its six `Math.random()` draws (each in `[0,1)`): `rt` biases the tree height,
`rPhase` the spiral phase, `rJit` the radial jitter; `rScat`, `rTheta`,
`rPhi` drive the scatter-shell radius and the spherical angles.  Returns
`(posTree, posScatter)`. -/
def calculatePositions (isDust : Bool) (rt rPhase rJit rScat rTheta rPhi : ℝ) :
    Vec3 × Vec3 :=
  -- TREE SHAPE: Spiral
  let h := treeHeight
  let halfH := h / 2
  let t := rt ^ (0.8 : ℝ)       -- Math.pow(t, 0.8): bias towards bottom
  let y := t * h - halfH
  let rMax0 := treeRadius * (1.0 - t)
  let rMax := if rMax0 < 0.5 then 0.5 else rMax0
  let angle := t * 50 * Real.pi + rPhase * Real.pi
  let r := rMax * (0.8 + rJit * 0.4)
  let posTree : Vec3 := ⟨Real.cos angle * r, y, Real.sin angle * r⟩
  -- SCATTER SHAPE: Large Cloud/Sphere
  let rScatter := if isDust then 15 + rScat * 25 else 10 + rScat * 15
  let theta := rTheta * Real.pi * 2
  let phi := Real.arccos (2 * rPhi - 1)
  let posScatter : Vec3 := ⟨rScatter * Real.sin phi * Real.cos theta,
    rScatter * Real.sin phi * Real.sin theta,
    rScatter * Real.cos phi⟩
  (posTree, posScatter)

lemma sqrt_circle_radius (a r : ℝ) (hr : 0 ≤ r) :
    Real.sqrt ((Real.cos a * r) ^ 2 + (Real.sin a * r) ^ 2) = r := by
  have hsum : (Real.cos a * r) ^ 2 + (Real.sin a * r) ^ 2 = r ^ 2 := by
    have h := Real.sin_sq_add_cos_sq a
    nlinarith [h]
  rw [hsum, Real.sqrt_sq hr]

/-- C6: for every entity and every draw `rt ∈ [0,1]` fed to the tree-layout
formula (bias exponent 0.8, H = 24, R = 8, rMax floored at 0.5, radial
jitter factor in [0.8, 1.2]), the tree-layout position has height in
`[-H/2, H/2]` and horizontal radius at most `1.2 * R`. -/
theorem tree_layout_bounds (isDust : Bool) (rt rPhase rJit rScat rTheta rPhi : ℝ)
    (ht0 : 0 ≤ rt) (ht1 : rt ≤ 1) (hj0 : 0 ≤ rJit) (hj1 : rJit ≤ 1) :
    -(treeHeight / 2) ≤ (calculatePositions isDust rt rPhase rJit rScat rTheta rPhi).1.y ∧
    (calculatePositions isDust rt rPhase rJit rScat rTheta rPhi).1.y ≤ treeHeight / 2 ∧
    Real.sqrt ((calculatePositions isDust rt rPhase rJit rScat rTheta rPhi).1.x ^ 2
      + (calculatePositions isDust rt rPhase rJit rScat rTheta rPhi).1.z ^ 2)
      ≤ 1.2 * treeRadius := by
  have hT0 : (0 : ℝ) ≤ rt ^ (0.8 : ℝ) := Real.rpow_nonneg ht0 _
  have hT1 : rt ^ (0.8 : ℝ) ≤ 1 := Real.rpow_le_one ht0 ht1 (by norm_num)
  simp only [calculatePositions, treeHeight, treeRadius]
  set t := rt ^ (0.8 : ℝ) with hts
  set rMax : ℝ := if 8 * (1.0 - t) < 0.5 then 0.5 else 8 * (1.0 - t) with hrmax
  have hrm1 : rMax ≤ 8 := by
    rw [hrmax]; split_ifs <;> nlinarith
  have hrm0 : (0 : ℝ) ≤ rMax := by
    rw [hrmax]; split_ifs with hc
    · norm_num
    · nlinarith [not_lt.mp hc]
  have hfac0 : (0 : ℝ) ≤ 0.8 + rJit * 0.4 := by nlinarith
  have hfac1 : (0.8 : ℝ) + rJit * 0.4 ≤ 1.2 := by nlinarith
  have hr0 : (0 : ℝ) ≤ rMax * (0.8 + rJit * 0.4) := mul_nonneg hrm0 hfac0
  refine ⟨by nlinarith, by nlinarith, ?_⟩
  rw [sqrt_circle_radius _ _ hr0]
  nlinarith [mul_le_mul hrm1 hfac1 hfac0 (by norm_num : (0:ℝ) ≤ 8)]

theorem tree_layout_bounds_witness :
    (0 : ℝ) ≤ 1 ∧ (1 : ℝ) ≤ 1 ∧ (0 : ℝ) ≤ 0 ∧ (0 : ℝ) ≤ 1 ∧
    Real.sqrt ((calculatePositions false 1 0 0 0 0 0).1.x ^ 2
      + (calculatePositions false 1 0 0 0 0 0).1.z ^ 2) ≤ 1.2 * treeRadius :=
  ⟨by norm_num, by norm_num, le_refl 0, by norm_num,
    (tree_layout_bounds false 1 0 0 0 0 0 (by norm_num) (by norm_num)
      (by norm_num) (by norm_num)).2.2⟩

/-- C7: every scatter-layout sample lies on the sphere shell of the sampled
radius — its Euclidean norm equals the radius — and the radius is in
`[10, 25]` for non-dust entities and `[15, 40]` for dust entities. -/
theorem scatter_layout_shell (isDust : Bool) (rt rPhase rJit rScat rTheta rPhi : ℝ)
    (ha0 : 0 ≤ rScat) (ha1 : rScat ≤ 1) :
    Real.sqrt ((calculatePositions isDust rt rPhase rJit rScat rTheta rPhi).2.x ^ 2
      + (calculatePositions isDust rt rPhase rJit rScat rTheta rPhi).2.y ^ 2
      + (calculatePositions isDust rt rPhase rJit rScat rTheta rPhi).2.z ^ 2)
      = (if isDust then 15 + rScat * 25 else 10 + rScat * 15) ∧
    (isDust = true →
      15 ≤ (if isDust then 15 + rScat * 25 else 10 + rScat * 15) ∧
      (if isDust then 15 + rScat * 25 else 10 + rScat * 15) ≤ (40 : ℝ)) ∧
    (isDust = false →
      10 ≤ (if isDust then 15 + rScat * 25 else 10 + rScat * 15) ∧
      (if isDust then 15 + rScat * 25 else 10 + rScat * 15) ≤ (25 : ℝ)) := by
  have hθ := Real.sin_sq_add_cos_sq (rTheta * Real.pi * 2)
  have hφ := Real.sin_sq_add_cos_sq (Real.arccos (2 * rPhi - 1))
  cases isDust <;> simp only [calculatePositions, if_true, if_false,
    Bool.false_eq_true, Bool.true_eq_false]
  · refine ⟨?_, by simp, fun _ => ⟨by nlinarith, by nlinarith⟩⟩
    have hsq : ((10 + rScat * 15) * Real.sin (Real.arccos (2 * rPhi - 1))
          * Real.cos (rTheta * Real.pi * 2)) ^ 2
        + ((10 + rScat * 15) * Real.sin (Real.arccos (2 * rPhi - 1))
          * Real.sin (rTheta * Real.pi * 2)) ^ 2
        + ((10 + rScat * 15) * Real.cos (Real.arccos (2 * rPhi - 1))) ^ 2
        = (10 + rScat * 15) ^ 2 := by
      linear_combination ((10 + rScat * 15)
        * Real.sin (Real.arccos (2 * rPhi - 1))) ^ 2 * hθ + (10 + rScat * 15) ^ 2 * hφ
    rw [hsq, Real.sqrt_sq (by nlinarith)]
  · refine ⟨?_, fun _ => ⟨by nlinarith, by nlinarith⟩, by simp⟩
    have hsq : ((15 + rScat * 25) * Real.sin (Real.arccos (2 * rPhi - 1))
          * Real.cos (rTheta * Real.pi * 2)) ^ 2
        + ((15 + rScat * 25) * Real.sin (Real.arccos (2 * rPhi - 1))
          * Real.sin (rTheta * Real.pi * 2)) ^ 2
        + ((15 + rScat * 25) * Real.cos (Real.arccos (2 * rPhi - 1))) ^ 2
        = (15 + rScat * 25) ^ 2 := by
      linear_combination ((15 + rScat * 25)
        * Real.sin (Real.arccos (2 * rPhi - 1))) ^ 2 * hθ + (15 + rScat * 25) ^ 2 * hφ
    rw [hsq, Real.sqrt_sq (by nlinarith)]

theorem scatter_layout_shell_witness :
    (0 : ℝ) ≤ 0 ∧ (0 : ℝ) ≤ 1 ∧
    Real.sqrt ((calculatePositions false 0 0 0 0 0 0).2.x ^ 2
      + (calculatePositions false 0 0 0 0 0 0).2.y ^ 2
      + (calculatePositions false 0 0 0 0 0 0).2.z ^ 2) = 10 :=
  ⟨le_refl 0, by norm_num, by
    have h := (scatter_layout_shell false 0 0 0 0 0 0 (le_refl 0) (by norm_num)).1
    simpa using h⟩

/-! ## The per-frame Particle.update step -/

/-- 4x4 real matrix, modelling `THREE.Matrix4`. -/
abbrev Mat4 := Matrix (Fin 4) (Fin 4) ℝ

/-- `THREE.Vector3.applyMatrix4`: apply a 4x4 matrix to a point with the
perspective divide by the fourth homogeneous component. -/
def applyMatrix4 (m : Mat4) (v : Vec3) : Vec3 :=
  let w := 1 / (m 3 0 * v.x + m 3 1 * v.y + m 3 2 * v.z + m 3 3)
  ⟨(m 0 0 * v.x + m 0 1 * v.y + m 0 2 * v.z + m 0 3) * w,
   (m 1 0 * v.x + m 1 1 * v.y + m 1 2 * v.z + m 1 3) * w,
   (m 2 0 * v.x + m 2 1 * v.y + m 2 2 * v.z + m 2 3) * w⟩

/-- The camera-relative position target of the focused entity:
`new THREE.Vector3(0, 0, 38).applyMatrix4(invMatrix)` where `invMatrix` is
the inverted group world matrix (Scene3D.tsx lines 94-96).
`THREE.Matrix4.invert` yields the zero matrix for a singular matrix, which
is exactly the behaviour of `Matrix.inv`. -/
def focusPositionTarget (M : Mat4) : Vec3 := applyMatrix4 M⁻¹ ⟨0, 0, 38⟩

/-- The point handed to `lookAt` for the focused entity:
`new THREE.Vector3(0, 0, CONFIG.camera.z).applyMatrix4(invMatrix)`
(Scene3D.tsx lines 123-124). -/
def lookAtPoint (M : Mat4) : Vec3 := applyMatrix4 M⁻¹ ⟨0, 0, cameraZ⟩

/-- Squared length of a vector (`THREE.Vector3.lengthSq`). -/
def Vec3.lengthSq (v : Vec3) : ℝ := v.x ^ 2 + v.y ^ 2 + v.z ^ 2

/-- Length of a vector (`THREE.Vector3.length`). -/
def Vec3.length (v : Vec3) : ℝ := Real.sqrt v.lengthSq

/-- `THREE.Vector3.normalize` divides by `length() || 1`, so the zero vector
is left unchanged. -/
def normalize3 (v : Vec3) : Vec3 :=
  if v.length = 0 then v else ⟨v.x / v.length, v.y / v.length, v.z / v.length⟩

/-- `THREE.Vector3.crossVectors`. -/
def cross3 (a b : Vec3) : Vec3 :=
  ⟨a.y * b.z - a.z * b.y, a.z * b.x - a.x * b.z, a.x * b.y - a.y * b.x⟩

/-- `THREE.Vector3.lerp`: `this.x += (v.x - this.x) * alpha` componentwise. -/
def Vec3.lerp (a b : Vec3) (alpha : ℝ) : Vec3 :=
  ⟨a.x + (b.x - a.x) * alpha, a.y + (b.y - a.y) * alpha, a.z + (b.z - a.z) * alpha⟩

/-- `THREE.MathUtils.lerp x y t = (1 - t) * x + t * y`. -/
def lerp1 (x y t : ℝ) : ℝ := (1 - t) * x + t * y

/-- `THREE.MathUtils.clamp value min max = Math.max(min, Math.min(max, value))`. -/
def clamp (v lo hi : ℝ) : ℝ := max lo (min hi v)

/-- `Math.atan2`. -/
def atan2 (y x : ℝ) : ℝ :=
  if 0 < x then Real.arctan (y / x)
  else if x < 0 then
    if 0 ≤ y then Real.arctan (y / x) + Real.pi else Real.arctan (y / x) - Real.pi
  else
    if 0 < y then Real.pi / 2 else if y < 0 then -(Real.pi / 2) else 0

/-- The orthonormal basis built by `THREE.Matrix4.lookAt(eye, target, up)`
with the default up vector `(0, 1, 0)`: `z = normalize(eye - target)`
(patched to `(0,0,1)` when zero), `x = normalize(up × z)` (with the
near-parallel `z.z += 0.0001` fallback), `y = z × x`.  Returns the three
matrix columns `(x, y, z)`. -/
def lookAtBasis (eye target : Vec3) : Vec3 × Vec3 × Vec3 :=
  let z0 : Vec3 := ⟨eye.x - target.x, eye.y - target.y, eye.z - target.z⟩
  let z1 := if z0.lengthSq = 0 then { z0 with z := 1 } else z0
  let za := normalize3 z1
  let x0 := cross3 ⟨0, 1, 0⟩ za
  let zb := if x0.lengthSq = 0 then normalize3 { za with z := za.z + 0.0001 } else za
  let x1 := if x0.lengthSq = 0 then cross3 ⟨0, 1, 0⟩ zb else x0
  let xv := normalize3 x1
  let yv := cross3 zb xv
  (xv, yv, zb)

/-- `THREE.Euler.setFromRotationMatrix` with the default order XYZ, given the
three columns of a rotation matrix. -/
def eulerXYZ (xv yv zv : Vec3) : Vec3 :=
  let ey := Real.arcsin (clamp zv.x (-1) 1)
  if |zv.x| < 0.9999999 then
    ⟨atan2 (-zv.y) zv.z, ey, atan2 (-yv.x) xv.x⟩
  else
    ⟨atan2 yv.z yv.y, ey, 0⟩

/-- `this.mesh.lookAt(target)` (Scene3D.tsx line 125): per
`THREE.Object3D.lookAt`, the object's world position is its local position
`pos` mapped through the parent group's world matrix `M`, the rotation basis
is `Matrix4.lookAt(target, worldPos, up)` (non-camera orientation, so +z
points from the object toward the target), and the resulting Euler XYZ
angles are stored in `.rotation`.  The premultiplication by the inverse
parent world quaternion is modelled for a group whose world rotation is the
identity, where it is trivial. -/
def lookAtRot (M : Mat4) (pos target : Vec3) : Vec3 :=
  let worldPos := applyMatrix4 M pos
  let b := lookAtBasis target worldPos
  eulerXYZ b.1 b.2.1 b.2.2

/-- The per-frame mutable transform of a particle's renderable
(`mesh.position`, `mesh.rotation` as Euler XYZ angles, `mesh.scale`). -/
structure PartState where
  position : Vec3
  rotation : Vec3
  scale : Vec3

/-- The immutable per-particle data of the `Particle` class (Scene3D.tsx
lines 29-57): renderable handle, category string, dust flag, the two layout
targets, base scale, spin velocity and the random identity used as the
twinkle phase. -/
structure ParticleData where
  mesh : ℕ
  type : String
  isDust : Bool
  posTree : Vec3
  posScatter : Vec3
  baseScale : ℝ
  spinSpeed : Vec3
  id : ℝ

/-- `Particle.update(dt, mode, time, focusTarget, mainGroupMatrix)`
(Scene3D.tsx lines 83-142): target selection, position lerp, the three
rotation branches (spin, tree-relax, lookAt) and the scale logic with the
final smoothed scale lerp. -/
def update (p : ParticleData) (st : PartState) (dt : ℝ) (mode : AppMode)
    (time : ℝ) (focusTarget : Option ℕ) (mainGroupMatrix : Mat4) : PartState :=
  let target :=
    if mode = SCATTER then p.posScatter
    else if mode = FOCUS then
      if focusTarget = some p.mesh then focusPositionTarget mainGroupMatrix
      else p.posScatter
    else p.posTree
  let isTarget := mode = FOCUS ∧ focusTarget = some p.mesh
  let lerpSpeed : ℝ := if isTarget then 3.5 else 1.8
  let position := st.position.lerp target (lerpSpeed * dt)
  let rotation :=
    if mode = SCATTER ∨ (mode = FOCUS ∧ ¬ isTarget) then
      ⟨st.rotation.x + p.spinSpeed.x * dt,
       st.rotation.y + p.spinSpeed.y * dt,
       st.rotation.z + p.spinSpeed.z * dt⟩
    else if mode = TREE then
      ⟨lerp1 st.rotation.x 0 dt, st.rotation.y + 0.5 * dt, lerp1 st.rotation.z 0 dt⟩
    else if isTarget then
      lookAtRot mainGroupMatrix position (lookAtPoint mainGroupMatrix)
    else st.rotation
  let s :=
    if p.isDust then
      if mode = TREE then 0
      else p.baseScale * (0.8 + 0.5 * Real.sin (time * 3 + p.id * 10))
    else if mode = SCATTER ∧ p.type = "PHOTO" then p.baseScale * 2.0
    else if mode = FOCUS then
      if isTarget then 6.0 else p.baseScale * 0.5
    else p.baseScale
  let scale := st.scale.lerp ⟨s, s, s⟩ (3.0 * dt)
  { position := position, rotation := rotation, scale := scale }

/-- C8: with deltaTime = 0 and mode / focus target / group transform held
fixed, any number of update steps leaves the particle's position and scale
exactly unchanged: the current position and scale are a fixed point of the
update under dt = 0, for every entity state, mode, focus target and group
world transform. -/
theorem update_dt_zero_fixes_position_scale (p : ParticleData) (st : PartState)
    (mode : AppMode) (time : ℝ) (ft : Option ℕ) (M : Mat4) (n : ℕ) :
    ((fun s => update p s 0 mode time ft M)^[n] st).position = st.position ∧
    ((fun s => update p s 0 mode time ft M)^[n] st).scale = st.scale := by
  have hpos : ∀ s : PartState, (update p s 0 mode time ft M).position = s.position := by
    intro s
    simp [update, Vec3.lerp]
  have hsc : ∀ s : PartState, (update p s 0 mode time ft M).scale = s.scale := by
    intro s
    simp [update, Vec3.lerp]
  induction n with
  | zero => exact ⟨rfl, rfl⟩
  | succ k ih =>
    rw [Function.iterate_succ_apply']
    exact ⟨(hpos _).trans ih.1, (hsc _).trans ih.2⟩

theorem update_dt_zero_fixes_position_scale_witness :
    ((fun s => update ⟨0, "BOX", false, ⟨1, 2, 3⟩, ⟨4, 5, 6⟩, 1, ⟨0, 0, 0⟩, 0⟩
        s 0 AppMode.TREE 0 none 1)^[2]
      ⟨⟨7, 8, 9⟩, ⟨0, 0, 0⟩, ⟨1, 1, 1⟩⟩).position = ⟨7, 8, 9⟩ ∧
    ((fun s => update ⟨0, "BOX", false, ⟨1, 2, 3⟩, ⟨4, 5, 6⟩, 1, ⟨0, 0, 0⟩, 0⟩
        s 0 AppMode.TREE 0 none 1)^[2]
      ⟨⟨7, 8, 9⟩, ⟨0, 0, 0⟩, ⟨1, 1, 1⟩⟩).scale = ⟨1, 1, 1⟩ :=
  update_dt_zero_fixes_position_scale
    ⟨0, "BOX", false, ⟨1, 2, 3⟩, ⟨4, 5, 6⟩, 1, ⟨0, 0, 0⟩, 0⟩
    ⟨⟨7, 8, 9⟩, ⟨0, 0, 0⟩, ⟨1, 1, 1⟩⟩ AppMode.TREE 0 none 1 2

lemma applyMatrix4_one (v : Vec3) : applyMatrix4 (1 : Mat4) v = v := by
  unfold applyMatrix4
  have h00 : (1 : Mat4) 0 0 = 1 := Matrix.one_apply_eq 0
  have h11 : (1 : Mat4) 1 1 = 1 := Matrix.one_apply_eq 1
  have h22 : (1 : Mat4) 2 2 = 1 := Matrix.one_apply_eq 2
  have h33 : (1 : Mat4) 3 3 = 1 := Matrix.one_apply_eq 3
  have h01 : (1 : Mat4) 0 1 = 0 := Matrix.one_apply_ne (by decide)
  have h02 : (1 : Mat4) 0 2 = 0 := Matrix.one_apply_ne (by decide)
  have h03 : (1 : Mat4) 0 3 = 0 := Matrix.one_apply_ne (by decide)
  have h10 : (1 : Mat4) 1 0 = 0 := Matrix.one_apply_ne (by decide)
  have h12 : (1 : Mat4) 1 2 = 0 := Matrix.one_apply_ne (by decide)
  have h13 : (1 : Mat4) 1 3 = 0 := Matrix.one_apply_ne (by decide)
  have h20 : (1 : Mat4) 2 0 = 0 := Matrix.one_apply_ne (by decide)
  have h21 : (1 : Mat4) 2 1 = 0 := Matrix.one_apply_ne (by decide)
  have h23 : (1 : Mat4) 2 3 = 0 := Matrix.one_apply_ne (by decide)
  have h30 : (1 : Mat4) 3 0 = 0 := Matrix.one_apply_ne (by decide)
  have h31 : (1 : Mat4) 3 1 = 0 := Matrix.one_apply_ne (by decide)
  have h32 : (1 : Mat4) 3 2 = 0 := Matrix.one_apply_ne (by decide)
  rw [h00, h01, h02, h03, h10, h11, h12, h13, h20, h21, h22, h23, h30, h31, h32, h33]
  simp

lemma lookAtPoint_one : lookAtPoint (1 : Mat4) = ⟨0, 0, 50⟩ := by
  unfold lookAtPoint cameraZ
  rw [inv_one, applyMatrix4_one]

lemma focusPositionTarget_one : focusPositionTarget (1 : Mat4) = ⟨0, 0, 38⟩ := by
  unfold focusPositionTarget
  rw [inv_one, applyMatrix4_one]

/-- C9 counterexample: with the identity group world transform, the point the
focused entity is oriented to face, `(0,0,50)` (the camera distance
CONFIG.camera.z), differs from the camera-relative position target of step 1,
which is `(0,0,38)` — the two are not equal. -/
theorem lookAt_point_ne_position_target :
    lookAtPoint (1 : Mat4) ≠ focusPositionTarget (1 : Mat4) := by
  rw [lookAtPoint_one, focusPositionTarget_one]
  intro h
  have := congrArg Vec3.z h
  norm_num at this

/-- C9 (amended): for the active focus target in FOCUS mode, the position
target of step 1 and the point handed to lookAt are computed the same way —
each applies the inverse of the group world transform to a fixed point on
the camera axis — but from the distinct base points `(0,0,38)` (position
target) and `(0,0,50)` (lookAt point, the camera distance), so the two
camera-relative points are in general different. -/
theorem focus_target_points (p : ParticleData) (st : PartState) (dt time : ℝ)
    (M : Mat4) :
    (update p st dt AppMode.FOCUS time (some p.mesh) M).position
      = st.position.lerp (applyMatrix4 M⁻¹ ⟨0, 0, 38⟩) (3.5 * dt) ∧
    (update p st dt AppMode.FOCUS time (some p.mesh) M).rotation
      = lookAtRot M (st.position.lerp (applyMatrix4 M⁻¹ ⟨0, 0, 38⟩) (3.5 * dt))
          (applyMatrix4 M⁻¹ ⟨0, 0, cameraZ⟩) := by
  constructor
  · simp [update, focusPositionTarget]
  · simp [update, focusPositionTarget, lookAtPoint]

theorem focus_target_points_witness :
    (update ⟨2, "PHOTO", false, ⟨1, 2, 3⟩, ⟨4, 5, 6⟩, 1, ⟨0, 0, 0⟩, 0⟩
        ⟨⟨0, 0, 0⟩, ⟨0, 0, 0⟩, ⟨1, 1, 1⟩⟩ 0 AppMode.FOCUS 0 (some 2) 1).position
      = Vec3.lerp ⟨0, 0, 0⟩ (applyMatrix4 (1 : Mat4)⁻¹ ⟨0, 0, 38⟩) (3.5 * 0) ∧
    (update ⟨2, "PHOTO", false, ⟨1, 2, 3⟩, ⟨4, 5, 6⟩, 1, ⟨0, 0, 0⟩, 0⟩
        ⟨⟨0, 0, 0⟩, ⟨0, 0, 0⟩, ⟨1, 1, 1⟩⟩ 0 AppMode.FOCUS 0 (some 2) 1).rotation
      = lookAtRot 1 (Vec3.lerp ⟨0, 0, 0⟩ (applyMatrix4 (1 : Mat4)⁻¹ ⟨0, 0, 38⟩) (3.5 * 0))
          (applyMatrix4 (1 : Mat4)⁻¹ ⟨0, 0, cameraZ⟩) :=
  focus_target_points ⟨2, "PHOTO", false, ⟨1, 2, 3⟩, ⟨4, 5, 6⟩, 1, ⟨0, 0, 0⟩, 0⟩
    ⟨⟨0, 0, 0⟩, ⟨0, 0, 0⟩, ⟨1, 1, 1⟩⟩ 0 0 1

lemma sqrt_2500 : Real.sqrt (2500 : ℝ) = 50 := by
  rw [show (2500 : ℝ) = 50 ^ 2 by norm_num, Real.sqrt_sq (by norm_num)]

lemma normalize3_z50 : normalize3 ⟨0, 0, 50⟩ = ⟨0, 0, 1⟩ := by
  simp only [normalize3, Vec3.length, Vec3.lengthSq]
  norm_num [sqrt_2500]

lemma normalize3_x1 : normalize3 ⟨1, 0, 0⟩ = ⟨1, 0, 0⟩ := by
  simp only [normalize3, Vec3.length, Vec3.lengthSq]
  norm_num

lemma lookAtBasis_front : lookAtBasis ⟨0, 0, 50⟩ ⟨0, 0, 0⟩
    = (⟨1, 0, 0⟩, ⟨0, 1, 0⟩, ⟨0, 0, 1⟩) := by
  simp only [lookAtBasis, cross3, Vec3.lengthSq]
  norm_num [normalize3_z50, normalize3_x1]

lemma lookAtRot_one_front : lookAtRot 1 ⟨0, 0, 0⟩ ⟨0, 0, 50⟩ = ⟨0, 0, 0⟩ := by
  simp only [lookAtRot]
  rw [applyMatrix4_one, lookAtBasis_front]
  simp only [eulerXYZ, clamp, atan2]
  norm_num [Real.arctan_zero, Real.arcsin_zero]

/-- C10: for the active focus target in FOCUS mode, update applies the
look-at reorientation toward the local-space camera point unconditionally —
the new rotation is the full lookAt result, not a deltaTime-scaled blend —
so a call with deltaTime = 0 can still change the entity's rotation (as the
concrete instance in the second conjunct shows), while position and scale
are fixed points at dt = 0. -/
theorem lookAt_applied_unconditionally :
    (∀ (p : ParticleData) (st : PartState) (dt time : ℝ) (M : Mat4),
      (update p st dt AppMode.FOCUS time (some p.mesh) M).rotation
        = lookAtRot M ((update p st dt AppMode.FOCUS time (some p.mesh) M).position)
            (lookAtPoint M)) ∧
    (update ⟨0, "PHOTO", false, ⟨0, 0, 0⟩, ⟨0, 0, 0⟩, 1, ⟨0, 0, 0⟩, 0⟩
        ⟨⟨0, 0, 0⟩, ⟨1, 1, 1⟩, ⟨1, 1, 1⟩⟩ 0 AppMode.FOCUS 0 (some 0) 1).rotation
      ≠ (⟨⟨0, 0, 0⟩, ⟨1, 1, 1⟩, ⟨1, 1, 1⟩⟩ : PartState).rotation := by
  constructor
  · intro p st dt time M
    simp [update]
  · have hrot : (update ⟨0, "PHOTO", false, ⟨0, 0, 0⟩, ⟨0, 0, 0⟩, 1, ⟨0, 0, 0⟩, 0⟩
        ⟨⟨0, 0, 0⟩, ⟨1, 1, 1⟩, ⟨1, 1, 1⟩⟩ 0 AppMode.FOCUS 0 (some 0) 1).rotation
        = lookAtRot 1 ⟨0, 0, 0⟩ (lookAtPoint 1) := by
      simp [update, Vec3.lerp]
    rw [hrot, lookAtPoint_one, lookAtRot_one_front]
    intro h
    have := congrArg Vec3.x h
    norm_num at this

theorem lookAt_applied_unconditionally_witness :
    (update ⟨3, "PHOTO", false, ⟨1, 2, 3⟩, ⟨4, 5, 6⟩, 1, ⟨0, 0, 0⟩, 0⟩
        ⟨⟨0, 0, 0⟩, ⟨1, 1, 1⟩, ⟨1, 1, 1⟩⟩ 0 AppMode.FOCUS 0 (some 3) 1).rotation
      = lookAtRot 1
          ((update ⟨3, "PHOTO", false, ⟨1, 2, 3⟩, ⟨4, 5, 6⟩, 1, ⟨0, 0, 0⟩, 0⟩
            ⟨⟨0, 0, 0⟩, ⟨1, 1, 1⟩, ⟨1, 1, 1⟩⟩ 0 AppMode.FOCUS 0 (some 3) 1).position)
          (lookAtPoint 1) :=
  lookAt_applied_unconditionally.1
    ⟨3, "PHOTO", false, ⟨1, 2, 3⟩, ⟨4, 5, 6⟩, 1, ⟨0, 0, 0⟩, 0⟩
    ⟨⟨0, 0, 0⟩, ⟨1, 1, 1⟩, ⟨1, 1, 1⟩⟩ 0 0 1

end

end Scene3D
